import Mathlib

/-!
Shallow embedding of `dnet/optimizers.py` (classes `Optimizer`, `SGD`, `Momentum`).

Modelling conventions:
* jax arrays are modelled as rational matrices (`Mat := List (List ℚ)`), row major;
  exact rational arithmetic stands in for floating point.
* `jax.random` is an external deterministic PRNG: `random.PRNGKey`, `random.split`
  and `random.normal` are modelled by concrete deterministic functions whose exact
  sample values are irrelevant to the development; only determinism and the shape
  of the returned array matter.
* The autodiff backend (`jit(grad(self.compute_cost))`) and the batch iterator
  (`BatchIterator(batch_size=bs)` from `dnet.data`) are external collaborators in
  the source; they are modelled as function-valued fields supplied at construction.
* Python attribute mutation is modelled by explicit state passing: each method
  that mutates `self` returns the updated record.
-/

/-- A matrix: list of rows of rational entries (models a 2-d jax array). -/
abbrev Mat := List (List ℚ)

/-- Entry access with default 0 (only used to state theorems, not in the code model). -/
def entry (m : Mat) (r c : ℕ) : ℚ := (m.getD r []).getD c 0

/-- `m` is a rectangular `rows × cols` matrix. -/
def rect (m : Mat) (rows cols : ℕ) : Prop :=
  m.length = rows ∧ ∀ row ∈ m, row.length = cols

/-- Shape of a 2-d array, as in `inputs.shape`: (number of rows, number of columns). -/
def matShape (m : Mat) : ℕ × ℕ := (m.length, (m.headD []).length)

/-- `tensor.zeros(shape=(r, c))`. -/
def zerosMat (r c : ℕ) : Mat := List.replicate r (List.replicate c 0)

/-- `tensor.zeros_like(m)`. -/
def zerosLike (m : Mat) : Mat := m.map (fun row => row.map (fun _ => 0))

/-- Scalar multiplication `c * m` (broadcast). -/
def matScale (c : ℚ) (m : Mat) : Mat := m.map (fun row => row.map (fun x => c * x))

/-- Elementwise subtraction `a - b` (same-shape arrays in all uses). -/
def matSub (a b : Mat) : Mat := List.zipWith (List.zipWith (fun x y => x - y)) a b

/-- Elementwise addition `a + b` (same-shape arrays in all uses). -/
def matAdd (a b : Mat) : Mat := List.zipWith (List.zipWith (fun x y => x + y)) a b

/-- Broadcast `1 - m`: scalar minus matrix, as in `(1 - self.beta * grads)`. -/
def matOneSub (m : Mat) : Mat := m.map (fun row => row.map (fun x => 1 - x))

/-- Division of a matrix by a scalar, as in `(...) / (1 - self.beta ** batch_num)`. -/
def matDivScalar (m : Mat) (d : ℚ) : Mat := m.map (fun row => row.map (fun x => x / d))

/-- Dot product of two equal-length vectors. -/
def listDot (xs ys : List ℚ) : ℚ := (List.zipWith (fun x y => x * y) xs ys).sum

/-- Transpose of a matrix (helper for the row-times-column product). -/
def matTranspose (m : Mat) : Mat :=
  (List.range (m.headD []).length).map (fun j => m.map (fun row => row.getD j 0))

/-- `tensor.dot(w, a)`: ordinary matrix product. -/
def matMul (w a : Mat) : Mat :=
  w.map (fun row => (matTranspose a).map (fun col => listDot row col))

/-- `z + b` where `z : units × n` and `b : units × 1`: jax broadcasts `b` over columns. -/
def matAddBroadcast (z b : Mat) : Mat :=
  List.zipWith (fun zrow brow => zrow.map (fun x => x + brow.headD 0)) z b

/-- A layer's parameter dict `{"w": w, "b": b}` (also the shape of a gradient dict
and of a momentum/velocity dict). -/
structure LayerParams where
  w : Mat
  b : Mat
deriving Repr, DecidableEq

instance : Inhabited LayerParams := ⟨⟨[], []⟩⟩

/-- `dnet.layers.FC`: a unit count and an activation function. -/
structure FC where
  units : ℕ
  activation : Mat → Mat

/-- A mini-batch produced by the external `BatchIterator`. -/
structure Batch where
  inputs : Mat
  outputs : Mat

/-- Model of `jax.random.PRNGKey(seed)`: keys are naturals. -/
def PRNGKey (seed : ℕ) : ℕ := seed

/-- Model of `jax.random.split(key)`: a fixed deterministic pair of fresh keys. -/
def prngSplit (key : ℕ) : ℕ × ℕ := (2 * key + 1, 2 * key + 2)

/-- Model of `jax.random.normal(key, shape)`: a deterministic function of the key
and the shape, returning an array of exactly that shape. The concrete sample
values are an arbitrary deterministic stand-in for the PRNG stream. -/
def randNormal (key : ℕ) (shape : ℕ × ℕ) : Mat :=
  (List.range shape.1).map (fun i =>
    (List.range shape.2).map (fun j => ((key * 31 + i * shape.2 + j : ℕ) : ℚ)))

/-- State of an `Optimizer` object (`dnet/optimizers.py`, class `Optimizer`).

`grad_fn` models `jit(grad(self.compute_cost))` — the external autodiff backend,
a function from (params, batch inputs, batch outputs) to a gradient structure.
`iterator` models `BatchIterator(batch_size=bs)` — the external batching
mechanism, called once per epoch on the full dataset. -/
structure Optimizer where
  layers : List FC
  loss_fn : Mat → Mat → ℚ
  accuracy_fn : Mat → Mat → ℚ
  epochs : ℤ
  lr : ℚ
  iterator : Mat → Mat → List Batch
  grad_fn : List LayerParams → Mat → Mat → List LayerParams
  network_params : List LayerParams
  cost : List ℚ
  accuracy : List ℚ

/-- `Optimizer.__init__`: stores the hyperparameters and collaborators and starts
with empty `network_params`, `cost` and `accuracy` lists. The source performs no
validation of any kind on `epochs`, `lr` or `bs`. -/
def Optimizer.init (layers : List FC) (loss accuracy : Mat → Mat → ℚ) (epochs : ℤ)
    (lr : ℚ) (iterator : Mat → Mat → List Batch)
    (grad_fn : List LayerParams → Mat → Mat → List LayerParams) : Optimizer :=
  { layers := layers
    loss_fn := loss
    accuracy_fn := accuracy
    epochs := epochs
    lr := lr
    iterator := iterator
    grad_fn := grad_fn
    network_params := []
    cost := []
    accuracy := [] }

/-- The loop body of `Optimizer.init_network_params`: for each layer, split the
key, draw `w = random.normal(subkey, (units, prev)) * 0.01`, set
`b = zeros((units, 1))` and append `{"w": w, "b": b}`. `prev` is
`input_shape[0]` for layer 0 and the previous layer's `units` afterwards. -/
def init_params_loop : ℕ → ℕ → List FC → List LayerParams
  | _, _, [] => []
  | key, prev, layer :: rest =>
    let ks := prngSplit key
    let w := matScale (1 / 100) (randNormal ks.2 (layer.units, prev))
    let b := zerosMat layer.units 1
    ⟨w, b⟩ :: init_params_loop ks.1 layer.units rest

/-- `Optimizer.init_network_params(input_shape)`: appends one parameter dict per
layer onto the existing `self.network_params` list (the list is never cleared). -/
def Optimizer.init_network_params (o : Optimizer) (input_shape : ℕ × ℕ) : Optimizer :=
  { o with network_params :=
      o.network_params ++ init_params_loop (PRNGKey 0) input_shape.1 o.layers }

/-- The loop of `Optimizer.compute_predictions`: for each layer `i`,
`z = dot(params[i]["w"], a) + params[i]["b"]; a = activation(z)`; note the body
indexes `params[i]` while iterating over `self.layers`. -/
def predictions_loop (params : List LayerParams) : List FC → ℕ → Mat → Mat
  | [], _, a => a
  | layer :: rest, i, a =>
    let p := params.getD i default
    let z := matAddBroadcast (matMul p.w a) p.b
    predictions_loop params rest (i + 1) (layer.activation z)

/-- `Optimizer.compute_predictions(params, inputs)`. -/
def Optimizer.compute_predictions (o : Optimizer) (params : List LayerParams)
    (inputs : Mat) : Mat :=
  predictions_loop params o.layers 0 inputs

/-- `Optimizer.compute_cost(params, inputs, outputs)`. -/
def Optimizer.compute_cost (o : Optimizer) (params : List LayerParams)
    (inputs outputs : Mat) : ℚ :=
  o.loss_fn (o.compute_predictions params inputs) outputs

/-- `Optimizer.compute_accuracy(predictions, outputs)`. -/
def Optimizer.compute_accuracy (o : Optimizer) (predictions outputs : Mat) : ℚ :=
  o.accuracy_fn predictions outputs

/-- `Optimizer.evaluate(inputs, outputs)`: accuracy of the current
`self.network_params` on the given data. -/
def Optimizer.evaluate (o : Optimizer) (inputs outputs : Mat) : ℚ :=
  o.compute_accuracy (o.compute_predictions o.network_params inputs) outputs

/-- The per-batch parameter update of `SGD.train`:
`for i, layer_params in enumerate(grads): network_params[i]["w"] -= lr * ...`.
The recursion follows `enumerate(grads)`: entries of `params` beyond
`grads.length` are left untouched. -/
def sgdUpdate (lr : ℚ) : List LayerParams → List LayerParams → List LayerParams
  | params, [] => params
  | [], _ :: _ => []
  | p :: ps, g :: gs =>
    ⟨matSub p.w (matScale lr g.w), matSub p.b (matScale lr g.b)⟩ :: sgdUpdate lr ps gs

/-- The inner batch loop of `SGD.train`: compute the gradient, update every
layer in place, then accumulate `loss += compute_cost(...)` with the parameters
after this batch's update. -/
def sgdBatches (o : Optimizer) : List Batch → List LayerParams → ℚ → List LayerParams × ℚ
  | [], params, loss => (params, loss)
  | b :: bs, params, loss =>
    let grads := o.grad_fn params b.inputs b.outputs
    let params2 := sgdUpdate o.lr params grads
    let loss2 := loss + o.compute_cost params2 b.inputs b.outputs
    sgdBatches o bs params2 loss2

/-- One epoch of `SGD.train`: zero the loss, run all batches from
`self.iterator(inputs, outputs)`, then append `loss` to `self.cost` and
`self.evaluate(inputs, outputs)` to `self.accuracy`. -/
def sgdEpoch (o : Optimizer) (inputs outputs : Mat) : Optimizer :=
  let st := sgdBatches o (o.iterator inputs outputs) o.network_params 0
  let o2 := { o with network_params := st.1 }
  { o2 with cost := o2.cost ++ [st.2]
            accuracy := o2.accuracy ++ [o2.evaluate inputs outputs] }

/-- The epoch loop of `SGD.train` (`for _ in range(self.epochs)`). -/
def sgdEpochs (inputs outputs : Mat) : ℕ → Optimizer → Optimizer
  | 0, o => o
  | Nat.succ n, o => sgdEpochs inputs outputs n (sgdEpoch o inputs outputs)

/-- `SGD.train(inputs, outputs)`: initialize the network parameters from the
inputs' shape, then run `self.epochs` epochs (`range` of a non-positive `epochs`
is empty). -/
def SGD.train (o : Optimizer) (inputs outputs : Mat) : Optimizer :=
  sgdEpochs inputs outputs o.epochs.toNat (o.init_network_params (matShape inputs))

/-- State of a `Momentum` object: the `Optimizer` state plus `beta` and the
velocity list `momentum_params` (which in Python only exists after
`init_network_params`; modelled as initially empty). -/
structure Momentum extends Optimizer where
  beta : ℚ
  momentum_params : List LayerParams

/-- `Momentum.__init__`: delegates to `Optimizer.__init__` and stores `beta`
(source default `0.9`). No validation is performed on `beta`. -/
def Momentum.init (layers : List FC) (loss accuracy : Mat → Mat → ℚ) (epochs : ℤ)
    (lr : ℚ) (iterator : Mat → Mat → List Batch)
    (grad_fn : List LayerParams → Mat → Mat → List LayerParams) (beta : ℚ) : Momentum :=
  { toOptimizer := Optimizer.init layers loss accuracy epochs lr iterator grad_fn
    beta := beta
    momentum_params := [] }

/-- `Momentum.init_network_params(input_shape)`: calls the base implementation,
then rebuilds `self.momentum_params` as `zeros_like` of every entry of the
(possibly already populated) `self.network_params`. -/
def Momentum.init_network_params (m : Momentum) (input_shape : ℕ × ℕ) : Momentum :=
  let o := m.toOptimizer.init_network_params input_shape
  { m with toOptimizer := o
           momentum_params := o.network_params.map (fun p => ⟨zerosLike p.w, zerosLike p.b⟩) }

/-- The velocity update of `Momentum.train` on one array:
`(beta * v + (1 - beta * g)) / (1 - beta ** batch_num)`, component-wise. -/
def momentumVel (beta : ℚ) (t : ℕ) (v g : Mat) : Mat :=
  matDivScalar (matAdd (matScale beta v) (matOneSub (matScale beta g))) (1 - beta ^ t)

/-- The per-batch layer loop of `Momentum.train`
(`for i, layer_params in enumerate(grads)`): update the layer's velocity dict
(`w` then `b`) by `momentumVel`, then `network_params[i] -= lr * momentum_params[i]`
using the freshly updated velocity. Returns (new params, new velocities). The
final catch-all arm is unreachable under the gradient shape contract (in Python
it would be an IndexError). -/
def momentumUpdate (beta lr : ℚ) (t : ℕ) :
    List LayerParams → List LayerParams → List LayerParams →
    List LayerParams × List LayerParams
  | params, vels, [] => (params, vels)
  | params, vels, g :: gs =>
    match params, vels with
    | p :: ps, v :: vs =>
      let vw := momentumVel beta t v.w g.w
      let vb := momentumVel beta t v.b g.b
      let rest := momentumUpdate beta lr t ps vs gs
      (⟨matSub p.w (matScale lr vw), matSub p.b (matScale lr vb)⟩ :: rest.1,
        ⟨vw, vb⟩ :: rest.2)
    | p, v => (p, v)

/-- The inner batch loop of `Momentum.train`, threading
(params, velocities, batch counter, loss): compute the gradient, run the layer
loop, increment `batch_num`, then `loss += compute_cost(...)` with the
parameters after this batch's update. -/
def momentumBatches (m : Momentum) :
    List Batch → List LayerParams × List LayerParams × ℕ × ℚ →
    List LayerParams × List LayerParams × ℕ × ℚ
  | [], st => st
  | b :: bs, (params, vels, t, loss) =>
    let grads := m.grad_fn params b.inputs b.outputs
    let upd := momentumUpdate m.beta m.lr t params vels grads
    momentumBatches m bs
      (upd.1, upd.2, t + 1, loss + m.toOptimizer.compute_cost upd.1 b.inputs b.outputs)

/-- One epoch of `Momentum.train`: `loss = 0.0; batch_num = 1`, run all batches
from `self.iterator(inputs, outputs)`, then append `loss` to `self.cost` and
`self.evaluate(inputs, outputs)` to `self.accuracy`. Note `batch_num` is a
local of the epoch body: every epoch starts it anew at 1. -/
def momentumEpoch (m : Momentum) (inputs outputs : Mat) : Momentum :=
  let st := momentumBatches m (m.iterator inputs outputs)
    (m.network_params, m.momentum_params, 1, 0)
  let m2 := { m with network_params := st.1, momentum_params := st.2.1 }
  { m2 with cost := m2.cost ++ [st.2.2.2]
            accuracy := m2.accuracy ++ [m2.toOptimizer.evaluate inputs outputs] }

/-- The epoch loop of `Momentum.train` (`for _ in range(self.epochs)`). -/
def momentumEpochs (inputs outputs : Mat) : ℕ → Momentum → Momentum
  | 0, m => m
  | Nat.succ n, m => momentumEpochs inputs outputs n (momentumEpoch m inputs outputs)

/-- `Momentum.train(inputs, outputs)`: initialize network and velocity
parameters from the inputs' shape, then run `self.epochs` epochs. -/
def Momentum.train (m : Momentum) (inputs outputs : Mat) : Momentum :=
  momentumEpochs inputs outputs m.epochs.toNat (m.init_network_params (matShape inputs))

/-- An all-zero gradient structure isomorphic to a parameter list (the shape of
what `grad_fn` returns when every partial derivative vanishes). -/
def zerosLikeParams (ps : List LayerParams) : List LayerParams :=
  ps.map (fun q => ⟨zerosLike q.w, zerosLike q.b⟩)

instance : Inhabited FC := ⟨⟨0, id⟩⟩

theorem getD_map_lt {α β : Type} (f : α → β) :
    ∀ (l : List α) (n : ℕ), n < l.length → ∀ (d : β) (d2 : α),
      (l.map f).getD n d = f (l.getD n d2)
  | [], n, h => absurd h (by simp)
  | _ :: _, 0, _ => fun _ _ => rfl
  | _ :: l, Nat.succ n, h => fun d d2 => getD_map_lt f l n (by simpa using h) d d2

theorem getD_zipWith_lt {α : Type} (f : α → α → α) :
    ∀ (xs ys : List α) (n : ℕ), n < xs.length → n < ys.length → ∀ (d dx dy : α),
      (List.zipWith f xs ys).getD n d = f (xs.getD n dx) (ys.getD n dy)
  | [], _, n, hx, _ => absurd hx (by simp)
  | _ :: _, [], n, _, hy => absurd hy (by simp)
  | _ :: _, _ :: _, 0, _, _ => fun _ _ _ => rfl
  | _ :: xs, _ :: ys, Nat.succ n, hx, hy => fun d dx dy =>
      getD_zipWith_lt f xs ys n (by simpa using hx) (by simpa using hy) d dx dy

theorem getD_take_lt {α : Type} :
    ∀ (l : List α) (n m : ℕ), n < m → ∀ (d : α), (l.take m).getD n d = l.getD n d
  | [], _, _, _ => fun _ => by simp
  | _ :: _, _, 0, h => absurd h (by simp)
  | _ :: _, 0, Nat.succ _, _ => fun _ => rfl
  | _ :: l, Nat.succ n, Nat.succ m, h => fun d =>
      getD_take_lt l n m (by simpa using h) d

theorem getD_mem_of_lt {α : Type} :
    ∀ (l : List α) (n : ℕ), n < l.length → ∀ (d : α), l.getD n d ∈ l
  | [], n, h => absurd h (by simp)
  | a :: l, 0, _ => fun d => List.mem_cons_self a l
  | _ :: l, Nat.succ n, h => fun d =>
      List.mem_cons_of_mem _ (getD_mem_of_lt l n (by simpa using h) d)

theorem rect_mapRow (f : ℚ → ℚ) (m : Mat) (rows cols : ℕ) (hm : rect m rows cols) :
    rect (m.map (fun row => row.map f)) rows cols := by
  obtain ⟨h1, h2⟩ := hm
  refine ⟨by simpa using h1, ?_⟩
  intro row hrow
  obtain ⟨row0, hrow0, rfl⟩ := List.mem_map.mp hrow
  simpa using h2 row0 hrow0

theorem rect_zipWith (f : ℚ → ℚ → ℚ) :
    ∀ (a b : Mat) (rows cols : ℕ), rect a rows cols → rect b rows cols →
      rect (List.zipWith (List.zipWith f) a b) rows cols
  | [], _, _, _, ha, _ => ⟨by simpa using ha.1, by simp⟩
  | _ :: _, [], _, _, ha, hb => by
      exact False.elim (by have h1 := ha.1; have h2 := hb.1; simp at h1 h2; omega)
  | x :: xs, y :: ys, rows, cols, ha, hb => by
      obtain ⟨h1, h2⟩ := ha
      obtain ⟨h3, h4⟩ := hb
      have hx : x.length = cols := h2 x (by simp)
      have hy : y.length = cols := h4 y (by simp)
      have htail := rect_zipWith f xs ys xs.length cols
        ⟨rfl, fun row hrow => h2 row (by simp [hrow])⟩
        ⟨by simp at h1 h3; omega, fun row hrow => h4 row (by simp [hrow])⟩
      obtain ⟨h5, h6⟩ := htail
      constructor
      · simp only [List.zipWith_cons_cons, List.length_cons, h5]
        simp at h1
        omega
      · intro row hrow
        simp only [List.zipWith_cons_cons] at hrow
        rcases List.mem_cons.mp hrow with h | h
        · subst h
          simp [List.length_zipWith, hx, hy]
        · exact h6 row h

theorem entry_mapRow (f : ℚ → ℚ) (m : Mat) (rows cols r c : ℕ)
    (hm : rect m rows cols) (hr : r < rows) (hc : c < cols) :
    entry (m.map (fun row => row.map f)) r c = f (entry m r c) := by
  obtain ⟨h1, h2⟩ := hm
  have hrm : r < m.length := by omega
  have hrowlen : (m.getD r []).length = cols := h2 _ (getD_mem_of_lt m r hrm [])
  unfold entry
  rw [getD_map_lt (fun row => row.map f) m r hrm [] []]
  exact getD_map_lt f (m.getD r []) c (by omega) 0 0

theorem entry_zipRow (f : ℚ → ℚ → ℚ) (a b : Mat) (rows cols r c : ℕ)
    (ha : rect a rows cols) (hb : rect b rows cols) (hr : r < rows) (hc : c < cols) :
    entry (List.zipWith (List.zipWith f) a b) r c = f (entry a r c) (entry b r c) := by
  obtain ⟨h1, h2⟩ := ha
  obtain ⟨h3, h4⟩ := hb
  have hra : r < a.length := by omega
  have hrb : r < b.length := by omega
  have hla : (a.getD r []).length = cols := h2 _ (getD_mem_of_lt a r hra [])
  have hlb : (b.getD r []).length = cols := h4 _ (getD_mem_of_lt b r hrb [])
  unfold entry
  rw [getD_zipWith_lt (List.zipWith f) a b r hra hrb [] [] []]
  exact getD_zipWith_lt f (a.getD r []) (b.getD r []) c (by omega) (by omega) 0 0 0

theorem rect_matScale (k : ℚ) (m : Mat) (rows cols : ℕ) (hm : rect m rows cols) :
    rect (matScale k m) rows cols := rect_mapRow _ m rows cols hm

theorem rect_matOneSub (m : Mat) (rows cols : ℕ) (hm : rect m rows cols) :
    rect (matOneSub m) rows cols := rect_mapRow _ m rows cols hm

theorem rect_matAdd (a b : Mat) (rows cols : ℕ) (ha : rect a rows cols)
    (hb : rect b rows cols) : rect (matAdd a b) rows cols := rect_zipWith _ a b rows cols ha hb

theorem rect_momentumVel (beta : ℚ) (t : ℕ) (v g : Mat) (rows cols : ℕ)
    (hv : rect v rows cols) (hg : rect g rows cols) :
    rect (momentumVel beta t v g) rows cols :=
  rect_mapRow _ _ rows cols (rect_matAdd _ _ rows cols (rect_matScale beta v rows cols hv)
    (rect_matOneSub _ rows cols (rect_matScale beta g rows cols hg)))

/-- Component-wise reading of the velocity update of `Momentum.train`. -/
theorem entry_momentumVel (beta : ℚ) (t : ℕ) (v g : Mat) (rows cols r c : ℕ)
    (hv : rect v rows cols) (hg : rect g rows cols) (hr : r < rows) (hc : c < cols) :
    entry (momentumVel beta t v g) r c
      = (beta * entry v r c + (1 - beta * entry g r c)) / (1 - beta ^ t) := by
  have hsv := rect_matScale beta v rows cols hv
  have hsg := rect_matScale beta g rows cols hg
  have hos := rect_matOneSub _ rows cols hsg
  have hadd := rect_matAdd _ _ rows cols hsv hos
  unfold momentumVel matDivScalar
  rw [entry_mapRow _ _ rows cols r c hadd hr hc]
  unfold matAdd
  rw [entry_zipRow _ _ _ rows cols r c hsv hos hr hc]
  unfold matOneSub
  rw [entry_mapRow _ _ rows cols r c hsg hr hc]
  unfold matScale
  rw [entry_mapRow _ _ rows cols r c hv hr hc,
    entry_mapRow _ _ rows cols r c hg hr hc]

/-- Component-wise reading of `p - lr * g` on one array. -/
theorem entry_subScale (lr : ℚ) (p g : Mat) (rows cols r c : ℕ)
    (hp : rect p rows cols) (hg : rect g rows cols) (hr : r < rows) (hc : c < cols) :
    entry (matSub p (matScale lr g)) r c = entry p r c - lr * entry g r c := by
  have hsg := rect_matScale lr g rows cols hg
  unfold matSub
  rw [entry_zipRow _ _ _ rows cols r c hp hsg hr hc]
  unfold matScale
  rw [entry_mapRow _ _ rows cols r c hg hr hc]

/-- Indexed reading of the per-batch layer loop of `Momentum.train`: for a layer
index `i` in range, the new velocity dict is the `momentumVel` update of the old
one and the new parameter dict subtracts `lr` times the new velocity. -/
theorem momentumUpdate_getD (beta lr : ℚ) (t : ℕ) :
    ∀ (params vels grads : List LayerParams) (i : ℕ),
      i < grads.length → i < params.length → i < vels.length →
      (momentumUpdate beta lr t params vels grads).2.getD i default
        = ⟨momentumVel beta t (vels.getD i default).w (grads.getD i default).w,
           momentumVel beta t (vels.getD i default).b (grads.getD i default).b⟩
      ∧ (momentumUpdate beta lr t params vels grads).1.getD i default
        = ⟨matSub (params.getD i default).w
              (matScale lr (momentumVel beta t (vels.getD i default).w (grads.getD i default).w)),
           matSub (params.getD i default).b
              (matScale lr (momentumVel beta t (vels.getD i default).b (grads.getD i default).b))⟩
  | params, vels, [], i, hig, _, _ => absurd hig (by simp)
  | [], vels, g :: gs, i, _, hip, _ => absurd hip (by simp)
  | p :: ps, [], g :: gs, i, _, _, hiv => absurd hiv (by simp)
  | p :: ps, v :: vs, g :: gs, 0, _, _, _ => by
      simp [momentumUpdate, List.getD]
  | p :: ps, v :: vs, g :: gs, Nat.succ i, hig, hip, hiv => by
      have ih := momentumUpdate_getD beta lr t ps vs gs i
        (by simpa using hig) (by simpa using hip) (by simpa using hiv)
      simpa [momentumUpdate, List.getD] using ih

/-- Indexed reading of the per-batch layer loop of `SGD.train`. -/
theorem sgdUpdate_getD (lr : ℚ) :
    ∀ (params grads : List LayerParams) (i : ℕ),
      i < grads.length → i < params.length →
      (sgdUpdate lr params grads).getD i default
        = ⟨matSub (params.getD i default).w (matScale lr (grads.getD i default).w),
           matSub (params.getD i default).b (matScale lr (grads.getD i default).b)⟩
  | params, [], i, hig, _ => absurd hig (by simp)
  | [], g :: gs, i, _, hip => absurd hip (by simp)
  | p :: ps, g :: gs, 0, _, _ => by simp [sgdUpdate, List.getD]
  | p :: ps, g :: gs, Nat.succ i, hig, hip => by
      have ih := sgdUpdate_getD lr ps gs i (by simpa using hig) (by simpa using hip)
      simpa [sgdUpdate, List.getD] using ih

theorem sgdUpdate_length (lr : ℚ) :
    ∀ (params grads : List LayerParams), (sgdUpdate lr params grads).length = params.length
  | params, [] => by cases params <;> simp [sgdUpdate]
  | [], g :: gs => by simp [sgdUpdate]
  | p :: ps, g :: gs => by simp [sgdUpdate, sgdUpdate_length lr ps gs]

theorem matSub_matScale_zerosLike (lr : ℚ) (m : Mat) :
    matSub m (matScale lr (zerosLike m)) = m := by
  induction m with
  | nil => rfl
  | cons row rest ih =>
      simp only [zerosLike, matScale, matSub, List.map_cons, List.zipWith_cons_cons] at *
      rw [ih]
      congr 1
      induction row with
      | nil => rfl
      | cons x xs ihx =>
          simpa using ihx

theorem sgdUpdate_zeros (lr : ℚ) (params : List LayerParams) :
    sgdUpdate lr params (zerosLikeParams params) = params := by
  induction params with
  | nil => rfl
  | cons p ps ih =>
      simp only [zerosLikeParams, List.map_cons, sgdUpdate] at *
      rw [matSub_matScale_zerosLike, matSub_matScale_zerosLike, ih]

/-- Claim C1: for every layer `i` in every batch of `Momentum.train`, the velocity
is updated by the exact non-standard rule
`v_i = (beta * v_i + (1 - beta * g_i)) / (1 - beta^t)`, component-wise and
independently on the `W` and `b` entries, and then the parameters are updated by
`param_i -= lr * v_i`, in that order within the batch (the parameter update uses
the freshly updated velocity). -/
theorem C1_momentum_update_rule (m : Momentum) (b : Batch) (bs : List Batch)
    (params vels grads : List LayerParams) (t : ℕ) (loss : ℚ)
    (i rows cols brows bcols r c rb cb : ℕ)
    (hg : grads = m.grad_fn params b.inputs b.outputs)
    (hig : i < grads.length) (hip : i < params.length) (hiv : i < vels.length)
    (hvw : rect (vels.getD i default).w rows cols)
    (hgw : rect (grads.getD i default).w rows cols)
    (hpw : rect (params.getD i default).w rows cols)
    (hvb : rect (vels.getD i default).b brows bcols)
    (hgb : rect (grads.getD i default).b brows bcols)
    (hpb : rect (params.getD i default).b brows bcols)
    (hr : r < rows) (hc : c < cols) (hrb : rb < brows) (hcb : cb < bcols) :
    momentumBatches m (b :: bs) (params, vels, t, loss)
      = momentumBatches m bs
          ((momentumUpdate m.beta m.lr t params vels grads).1,
           (momentumUpdate m.beta m.lr t params vels grads).2,
           t + 1,
           loss + m.toOptimizer.compute_cost (momentumUpdate m.beta m.lr t params vels grads).1
             b.inputs b.outputs)
    ∧ entry ((momentumUpdate m.beta m.lr t params vels grads).2.getD i default).w r c
        = (m.beta * entry (vels.getD i default).w r c
            + (1 - m.beta * entry (grads.getD i default).w r c)) / (1 - m.beta ^ t)
    ∧ entry ((momentumUpdate m.beta m.lr t params vels grads).2.getD i default).b rb cb
        = (m.beta * entry (vels.getD i default).b rb cb
            + (1 - m.beta * entry (grads.getD i default).b rb cb)) / (1 - m.beta ^ t)
    ∧ entry ((momentumUpdate m.beta m.lr t params vels grads).1.getD i default).w r c
        = entry (params.getD i default).w r c
            - m.lr * entry ((momentumUpdate m.beta m.lr t params vels grads).2.getD i default).w r c
    ∧ entry ((momentumUpdate m.beta m.lr t params vels grads).1.getD i default).b rb cb
        = entry (params.getD i default).b rb cb
            - m.lr * entry ((momentumUpdate m.beta m.lr t params vels grads).2.getD i default).b rb cb := by
  obtain ⟨hvel, hpar⟩ := momentumUpdate_getD m.beta m.lr t params vels grads i hig hip hiv
  refine ⟨by rw [hg]; rfl, ?_, ?_, ?_, ?_⟩
  · rw [hvel]
    exact entry_momentumVel m.beta t _ _ rows cols r c hvw hgw hr hc
  · rw [hvel]
    exact entry_momentumVel m.beta t _ _ brows bcols rb cb hvb hgb hrb hcb
  · rw [hvel, hpar]
    exact entry_subScale m.lr _ _ rows cols r c hpw
      (rect_momentumVel m.beta t _ _ rows cols hvw hgw) hr hc
  · rw [hvel, hpar]
    exact entry_subScale m.lr _ _ brows bcols rb cb hpb
      (rect_momentumVel m.beta t _ _ brows bcols hvb hgb) hrb hcb

theorem C1_momentum_update_rule_witness :
    rect [[(0 : ℚ)]] 1 1
    ∧ (0 : ℕ) < 1
    ∧ momentumBatches
        (Momentum.init [⟨1, id⟩] (fun _ _ => 0) (fun _ _ => 0) 1 1
          (fun x y => [⟨x, y⟩]) (fun _ _ _ => [⟨[[3]], [[4]]⟩]) (1/2))
        [⟨[[5]], [[6]]⟩]
        ([⟨[[10]], [[20]]⟩], [⟨[[0]], [[0]]⟩], 1, 0)
      = momentumBatches
          (Momentum.init [⟨1, id⟩] (fun _ _ => 0) (fun _ _ => 0) 1 1
            (fun x y => [⟨x, y⟩]) (fun _ _ _ => [⟨[[3]], [[4]]⟩]) (1/2))
          []
          ((momentumUpdate (1/2) 1 1 [⟨[[10]], [[20]]⟩] [⟨[[0]], [[0]]⟩] [⟨[[3]], [[4]]⟩]).1,
           (momentumUpdate (1/2) 1 1 [⟨[[10]], [[20]]⟩] [⟨[[0]], [[0]]⟩] [⟨[[3]], [[4]]⟩]).2,
           2,
           0 + (Momentum.init [⟨1, id⟩] (fun _ _ => 0) (fun _ _ => 0) 1 1
              (fun x y => [⟨x, y⟩]) (fun _ _ _ => [⟨[[3]], [[4]]⟩]) (1/2)).toOptimizer.compute_cost
              (momentumUpdate (1/2) 1 1 [⟨[[10]], [[20]]⟩] [⟨[[0]], [[0]]⟩] [⟨[[3]], [[4]]⟩]).1
              [[5]] [[6]])
    ∧ entry ((momentumUpdate (1/2) 1 1 [⟨[[10]], [[20]]⟩] [⟨[[0]], [[0]]⟩]
          [⟨[[3]], [[4]]⟩]).2.getD 0 default).w 0 0
        = ((1:ℚ)/2 * entry [[0]] 0 0 + (1 - (1/2) * entry [[3]] 0 0)) / (1 - (1/2) ^ 1) := by
  have h := C1_momentum_update_rule
    (Momentum.init [⟨1, id⟩] (fun _ _ => 0) (fun _ _ => 0) 1 1
      (fun x y => [⟨x, y⟩]) (fun _ _ _ => [⟨[[3]], [[4]]⟩]) (1/2))
    ⟨[[5]], [[6]]⟩ [] [⟨[[10]], [[20]]⟩] [⟨[[0]], [[0]]⟩] [⟨[[3]], [[4]]⟩] 1 0
    0 1 1 1 1 0 0 0 0
    rfl (by decide) (by decide) (by decide)
    (by constructor <;> simp) (by constructor <;> simp) (by constructor <;> simp)
    (by constructor <;> simp) (by constructor <;> simp) (by constructor <;> simp)
    (by decide) (by decide) (by decide) (by decide)
  exact ⟨by constructor <;> simp, by decide, h.1, h.2.1⟩

/-- Claim C3: in `SGD.train`, a batch first computes its own gradient, then
updates every layer in place by `W_i -= lr * g_i.W`, `b_i -= lr * g_i.b`
(component-wise), and only then accumulates the epoch loss with the cost of that
same batch evaluated at the parameters after this batch's update. -/
theorem C3_sgd_batch_update (o : Optimizer) (b : Batch) (bs : List Batch)
    (params grads : List LayerParams) (loss : ℚ)
    (i rows cols brows bcols r c rb cb : ℕ)
    (hg : grads = o.grad_fn params b.inputs b.outputs)
    (hig : i < grads.length) (hip : i < params.length)
    (hpw : rect (params.getD i default).w rows cols)
    (hgw : rect (grads.getD i default).w rows cols)
    (hpb : rect (params.getD i default).b brows bcols)
    (hgb : rect (grads.getD i default).b brows bcols)
    (hr : r < rows) (hc : c < cols) (hrb : rb < brows) (hcb : cb < bcols) :
    sgdBatches o (b :: bs) params loss
      = sgdBatches o bs (sgdUpdate o.lr params grads)
          (loss + o.compute_cost (sgdUpdate o.lr params grads) b.inputs b.outputs)
    ∧ entry ((sgdUpdate o.lr params grads).getD i default).w r c
        = entry (params.getD i default).w r c - o.lr * entry (grads.getD i default).w r c
    ∧ entry ((sgdUpdate o.lr params grads).getD i default).b rb cb
        = entry (params.getD i default).b rb cb - o.lr * entry (grads.getD i default).b rb cb := by
  have hupd := sgdUpdate_getD o.lr params grads i hig hip
  refine ⟨by rw [hg]; rfl, ?_, ?_⟩
  · rw [hupd]
    exact entry_subScale o.lr _ _ rows cols r c hpw hgw hr hc
  · rw [hupd]
    exact entry_subScale o.lr _ _ brows bcols rb cb hpb hgb hrb hcb

theorem C3_sgd_batch_update_witness :
    rect [[(7 : ℚ)]] 1 1
    ∧ (0 : ℕ) < 1
    ∧ sgdBatches
        (Optimizer.init [⟨1, id⟩] (fun _ _ => 0) (fun _ _ => 0) 1 (1/4)
          (fun x y => [⟨x, y⟩]) (fun _ _ _ => [⟨[[3]], [[4]]⟩]))
        [⟨[[5]], [[6]]⟩] [⟨[[7]], [[8]]⟩] 0
      = sgdBatches
          (Optimizer.init [⟨1, id⟩] (fun _ _ => 0) (fun _ _ => 0) 1 (1/4)
            (fun x y => [⟨x, y⟩]) (fun _ _ _ => [⟨[[3]], [[4]]⟩]))
          [] (sgdUpdate (1/4) [⟨[[7]], [[8]]⟩] [⟨[[3]], [[4]]⟩])
          (0 + (Optimizer.init [⟨1, id⟩] (fun _ _ => 0) (fun _ _ => 0) 1 (1/4)
              (fun x y => [⟨x, y⟩]) (fun _ _ _ => [⟨[[3]], [[4]]⟩])).compute_cost
              (sgdUpdate (1/4) [⟨[[7]], [[8]]⟩] [⟨[[3]], [[4]]⟩]) [[5]] [[6]])
    ∧ entry ((sgdUpdate (1/4) [⟨[[7]], [[8]]⟩] [⟨[[3]], [[4]]⟩]).getD 0 default).w 0 0
        = entry [[(7:ℚ)]] 0 0 - (1/4) * entry [[(3:ℚ)]] 0 0 := by
  have h := C3_sgd_batch_update
    (Optimizer.init [⟨1, id⟩] (fun _ _ => 0) (fun _ _ => 0) 1 (1/4)
      (fun x y => [⟨x, y⟩]) (fun _ _ _ => [⟨[[3]], [[4]]⟩]))
    ⟨[[5]], [[6]]⟩ [] [⟨[[7]], [[8]]⟩] [⟨[[3]], [[4]]⟩] 0
    0 1 1 1 1 0 0 0 0
    rfl (by decide) (by decide)
    (by constructor <;> simp) (by constructor <;> simp)
    (by constructor <;> simp) (by constructor <;> simp)
    (by decide) (by decide) (by decide) (by decide)
  exact ⟨by constructor <;> simp, by decide, h.1, h.2.1⟩

/-- Claim C8: if the gradient function returns an all-zero gradient structure
(isomorphic to the parameter list) for every batch, then the network parameters
after a full SGD epoch are exactly the parameters before the epoch. -/
theorem C8_zero_grad_sgd_epoch (o : Optimizer) (inputs outputs : Mat)
    (hg : ∀ p bi bo, o.grad_fn p bi bo = zerosLikeParams p) :
    (sgdEpoch o inputs outputs).network_params = o.network_params := by
  suffices h : ∀ (bs : List Batch) (params : List LayerParams) (loss : ℚ),
      (sgdBatches o bs params loss).1 = params by
    simp [sgdEpoch, h]
  intro bs
  induction bs with
  | nil => intro params loss; rfl
  | cons b bs ih =>
      intro params loss
      simp only [sgdBatches, hg, sgdUpdate_zeros]
      exact ih params _

theorem C8_zero_grad_sgd_epoch_witness :
    (∀ (p : List LayerParams) (bi bo : Mat),
      (Optimizer.init [⟨1, id⟩] (fun _ _ => 0) (fun _ _ => 0) 1 1
        (fun x y => [⟨x, y⟩]) (fun p _ _ => zerosLikeParams p)).grad_fn p bi bo
        = zerosLikeParams p)
    ∧ (sgdEpoch ((Optimizer.init [⟨1, id⟩] (fun _ _ => 0) (fun _ _ => 0) 1 1
          (fun x y => [⟨x, y⟩]) (fun p _ _ => zerosLikeParams p)).init_network_params (1, 1))
        [[1]] [[2]]).network_params
      = ((Optimizer.init [⟨1, id⟩] (fun _ _ => 0) (fun _ _ => 0) 1 1
          (fun x y => [⟨x, y⟩]) (fun p _ _ => zerosLikeParams p)).init_network_params
            (1, 1)).network_params :=
  ⟨fun _ _ _ => rfl,
   C8_zero_grad_sgd_epoch
     ((Optimizer.init [⟨1, id⟩] (fun _ _ => 0) (fun _ _ => 0) 1 1
        (fun x y => [⟨x, y⟩]) (fun p _ _ => zerosLikeParams p)).init_network_params (1, 1))
     [[1]] [[2]] (fun _ _ _ => rfl)⟩

theorem row_getD_replicate_zero : ∀ (cols c : ℕ), (List.replicate cols (0 : ℚ)).getD c 0 = 0
  | 0, c => by cases c <;> rfl
  | Nat.succ n, 0 => rfl
  | Nat.succ n, Nat.succ c => row_getD_replicate_zero n c

theorem entry_zerosMat : ∀ (rows cols r c : ℕ), entry (zerosMat rows cols) r c = 0
  | 0, cols, r, c => by cases r <;> rfl
  | Nat.succ n, cols, 0, c => row_getD_replicate_zero cols c
  | Nat.succ n, cols, Nat.succ r, c => entry_zerosMat n cols r c

theorem rect_zerosMat (rows cols : ℕ) : rect (zerosMat rows cols) rows cols := by
  constructor
  · simp [zerosMat]
  · intro row hrow
    rw [List.eq_of_mem_replicate hrow]
    simp

/-- Claim C9 (amended): with an all-zero gradient, the velocity is updated to
`(beta * v + 1) / (1 - beta^t)` component-wise; for `0 ≤ beta < 1`, `t ≥ 1` and
a nonnegative current velocity entry this value is at least 1 — the velocity
does NOT decay toward zero — while the layer parameters still change by exactly
`-lr` times the formula's output rather than by the raw (zero) gradient. -/
theorem C9_amended_zero_grad_momentum (beta lr : ℚ) (t rows cols r c : ℕ) (v p : Mat)
    (hb0 : 0 ≤ beta) (hb1 : beta < 1) (ht : 1 ≤ t)
    (hv : rect v rows cols) (hp : rect p rows cols)
    (hr : r < rows) (hc : c < cols) (hve : 0 ≤ entry v r c) :
    entry (momentumVel beta t v (zerosMat rows cols)) r c
      = (beta * entry v r c + 1) / (1 - beta ^ t)
    ∧ 1 ≤ entry (momentumVel beta t v (zerosMat rows cols)) r c
    ∧ entry (matSub p (matScale lr (momentumVel beta t v (zerosMat rows cols)))) r c
        = entry p r c - lr * entry (momentumVel beta t v (zerosMat rows cols)) r c := by
  have hz := rect_zerosMat rows cols
  have hformula := entry_momentumVel beta t v (zerosMat rows cols) rows cols r c hv hz hr hc
  rw [entry_zerosMat rows cols r c] at hformula
  have hform2 : entry (momentumVel beta t v (zerosMat rows cols)) r c
      = (beta * entry v r c + 1) / (1 - beta ^ t) := by
    rw [hformula]; ring_nf
  have hbt : beta ^ t ≤ beta := by
    calc beta ^ t ≤ beta ^ 1 := pow_le_pow_of_le_one hb0 (le_of_lt hb1) ht
    _ = beta := pow_one beta
  have hbtnn : 0 ≤ beta ^ t := pow_nonneg hb0 t
  have hd0 : 0 < 1 - beta ^ t := by linarith
  have hnum : 1 ≤ beta * entry v r c + 1 := by nlinarith
  refine ⟨hform2, ?_, ?_⟩
  · rw [hform2, le_div_iff₀ hd0]
    nlinarith
  · exact entry_subScale lr p _ rows cols r c hp
      (rect_momentumVel beta t v _ rows cols hv hz) hr hc

theorem C9_amended_zero_grad_momentum_witness :
    (0 : ℚ) ≤ 1/2 ∧ (1/2 : ℚ) < 1 ∧ (1 : ℕ) ≤ 1
    ∧ entry (momentumVel (1/2) 1 [[0]] (zerosMat 1 1)) 0 0
        = ((1/2 : ℚ) * entry [[0]] 0 0 + 1) / (1 - (1/2 : ℚ) ^ 1)
    ∧ 1 ≤ entry (momentumVel (1/2) 1 [[0]] (zerosMat 1 1)) 0 0 := by
  have h := C9_amended_zero_grad_momentum (1/2) 1 1 1 1 0 0 [[0]] [[9]]
    (by norm_num) (by norm_num) (by decide)
    (by constructor <;> simp) (by constructor <;> simp)
    (by decide) (by decide) (by simp [entry, List.getD])
  exact ⟨by norm_num, by norm_num, by decide, h.1, h.2.1⟩

/-- Claim C9 is false as stated: with all-zero gradients the velocity does not
decay toward zero. Concretely, with `beta = 1/2`, zero initial velocity and zero
gradients, after one batch the velocity is 2 and after two batches 8/3: the
magnitudes strictly increase away from 0. (Runs of `Momentum.train` with one
layer of one unit, lr = 1, one epoch of one, resp. two, identical batches.) -/
theorem C9_counterexample :
    (Momentum.train (Momentum.init [⟨1, id⟩] (fun _ _ => 0) (fun _ _ => 0) 1 1
        (fun x y => [⟨x, y⟩]) (fun p _ _ => zerosLikeParams p) (1/2))
        [[1]] [[1]]).momentum_params = [⟨[[2]], [[2]]⟩]
    ∧ (Momentum.train (Momentum.init [⟨1, id⟩] (fun _ _ => 0) (fun _ _ => 0) 1 1
        (fun x y => [⟨x, y⟩, ⟨x, y⟩]) (fun p _ _ => zerosLikeParams p) (1/2))
        [[1]] [[1]]).momentum_params = [⟨[[8/3]], [[8/3]]⟩]
    ∧ (0 : ℚ) < 2 ∧ (2 : ℚ) < 8/3 := by
  refine ⟨?_, ?_, by norm_num, by norm_num⟩ <;>
  · simp [Momentum.train, Momentum.init, Momentum.init_network_params, momentumEpochs,
      momentumEpoch, momentumBatches, momentumUpdate, momentumVel, Optimizer.init,
      Optimizer.init_network_params, init_params_loop, prngSplit, PRNGKey, randNormal,
      matShape, zerosMat, zerosLike, zerosLikeParams, matScale, matSub, matAdd, matOneSub,
      matDivScalar, Optimizer.compute_cost, Optimizer.compute_predictions, predictions_loop,
      matMul, matAddBroadcast, matTranspose, listDot, Optimizer.evaluate,
      Optimizer.compute_accuracy, List.range_succ]
    norm_num

/-- Claim C2 is false as stated: `batch_num` is a local variable of the epoch
body of `Momentum.train` and is re-initialized to 1 at every epoch. Concretely,
in a 2-epoch run whose iterator yields 2 zero-gradient batches per epoch
(`beta = 1/2`), the final velocity is 40/9, which is what the update rule gives
with exponent sequence 1,2,1,2 — and differs from the 112/45 that the claim's
never-reset exponent sequence 1,2,3,4 would give. -/
theorem C2_counterexample :
    (Momentum.train (Momentum.init [⟨1, id⟩] (fun _ _ => 0) (fun _ _ => 0) 2 1
        (fun x y => [⟨x, y⟩, ⟨x, y⟩]) (fun p _ _ => zerosLikeParams p) (1/2))
        [[1]] [[1]]).momentum_params = [⟨[[40/9]], [[40/9]]⟩]
    ∧ momentumVel (1/2) 2 (momentumVel (1/2) 1 (momentumVel (1/2) 2 (momentumVel (1/2) 1
        [[0]] [[0]]) [[0]]) [[0]]) [[0]] = [[40/9]]
    ∧ momentumVel (1/2) 4 (momentumVel (1/2) 3 (momentumVel (1/2) 2 (momentumVel (1/2) 1
        [[0]] [[0]]) [[0]]) [[0]]) [[0]] = [[112/45]]
    ∧ (40/9 : ℚ) ≠ 112/45 := by
  refine ⟨?_, ?_, ?_, by norm_num⟩ <;>
  · simp [Momentum.train, Momentum.init, Momentum.init_network_params, momentumEpochs,
      momentumEpoch, momentumBatches, momentumUpdate, momentumVel, Optimizer.init,
      Optimizer.init_network_params, init_params_loop, prngSplit, PRNGKey, randNormal,
      matShape, zerosMat, zerosLike, zerosLikeParams, matScale, matSub, matAdd, matOneSub,
      matDivScalar, Optimizer.compute_cost, Optimizer.compute_predictions, predictions_loop,
      matMul, matAddBroadcast, matTranspose, listDot, Optimizer.evaluate,
      Optimizer.compute_accuracy, List.range_succ]
    norm_num

/-- Claim C2 (amended): the bias-correction counter starts at 1 at the beginning
of each epoch, increases by exactly one after every batch within the epoch, and
IS reset between epochs (it is a local of the epoch body). Hence with 2 batches
per epoch the 4th batch overall is processed with exponent 2, not 4: a 2-epoch,
2-batches-per-epoch, zero-gradient run produces the velocity given by the
exponent sequence 1,2,1,2. -/
theorem C2_amended_epoch_counter (m : Momentum) (bs : List Batch)
    (params vels : List LayerParams) (t : ℕ) (loss : ℚ) :
    (momentumBatches m bs (params, vels, t, loss)).2.2.1 = t + bs.length
    ∧ (Momentum.train (Momentum.init [⟨1, id⟩] (fun _ _ => 0) (fun _ _ => 0) 2 1
        (fun x y => [⟨x, y⟩, ⟨x, y⟩]) (fun p _ _ => zerosLikeParams p) (1/2))
        [[1]] [[1]]).momentum_params
      = [⟨momentumVel (1/2) 2 (momentumVel (1/2) 1 (momentumVel (1/2) 2 (momentumVel (1/2) 1
            [[0]] [[0]]) [[0]]) [[0]]) [[0]],
          momentumVel (1/2) 2 (momentumVel (1/2) 1 (momentumVel (1/2) 2 (momentumVel (1/2) 1
            [[0]] [[0]]) [[0]]) [[0]]) [[0]]⟩] := by
  constructor
  · induction bs generalizing params vels t loss with
    | nil => rfl
    | cons b bs2 ih =>
        simp only [momentumBatches]
        rw [ih]
        simp only [List.length_cons]
        omega
  · simp [Momentum.train, Momentum.init, Momentum.init_network_params, momentumEpochs,
      momentumEpoch, momentumBatches, momentumUpdate, momentumVel, Optimizer.init,
      Optimizer.init_network_params, init_params_loop, prngSplit, PRNGKey, randNormal,
      matShape, zerosMat, zerosLike, zerosLikeParams, matScale, matSub, matAdd, matOneSub,
      matDivScalar, Optimizer.compute_cost, Optimizer.compute_predictions, predictions_loop,
      matMul, matAddBroadcast, matTranspose, listDot, Optimizer.evaluate,
      Optimizer.compute_accuracy, List.range_succ]

theorem sgdBatches_params_length (o : Optimizer) :
    ∀ (bs : List Batch) (params : List LayerParams) (loss : ℚ),
      (sgdBatches o bs params loss).1.length = params.length
  | [], _, _ => rfl
  | b :: bs, params, loss => by
      simp only [sgdBatches]
      rw [sgdBatches_params_length o bs, sgdUpdate_length]

theorem sgdEpoch_state (o : Optimizer) (x y : Mat) :
    (sgdEpoch o x y).cost.length = o.cost.length + 1
    ∧ (sgdEpoch o x y).accuracy.length = o.accuracy.length + 1
    ∧ (sgdEpoch o x y).network_params.length = o.network_params.length
    ∧ (sgdEpoch o x y).layers = o.layers
    ∧ (sgdEpoch o x y).epochs = o.epochs := by
  refine ⟨?_, ?_, ?_, rfl, rfl⟩ <;> simp [sgdEpoch, sgdBatches_params_length]

theorem sgdEpochs_state (x y : Mat) : ∀ (n : ℕ) (o : Optimizer),
    (sgdEpochs x y n o).cost.length = o.cost.length + n
    ∧ (sgdEpochs x y n o).accuracy.length = o.accuracy.length + n
    ∧ (sgdEpochs x y n o).network_params.length = o.network_params.length
    ∧ (sgdEpochs x y n o).layers = o.layers
    ∧ (sgdEpochs x y n o).epochs = o.epochs
  | 0, o => ⟨rfl, rfl, rfl, rfl, rfl⟩
  | Nat.succ n, o => by
      have ih := sgdEpochs_state x y n (sgdEpoch o x y)
      have he := sgdEpoch_state o x y
      simp only [sgdEpochs]
      refine ⟨?_, ?_, ?_, ?_, ?_⟩
      · rw [ih.1, he.1]; omega
      · rw [ih.2.1, he.2.1]; omega
      · rw [ih.2.2.1, he.2.2.1]
      · rw [ih.2.2.2.1, he.2.2.2.1]
      · rw [ih.2.2.2.2, he.2.2.2.2]

theorem init_params_loop_length : ∀ (layers : List FC) (key prev : ℕ),
    (init_params_loop key prev layers).length = layers.length
  | [], _, _ => rfl
  | l :: rest, key, prev => by
      simp [init_params_loop, init_params_loop_length rest]

theorem init_network_params_state (o : Optimizer) (s : ℕ × ℕ) :
    (o.init_network_params s).network_params.length
      = o.network_params.length + o.layers.length
    ∧ (o.init_network_params s).cost = o.cost
    ∧ (o.init_network_params s).accuracy = o.accuracy
    ∧ (o.init_network_params s).layers = o.layers
    ∧ (o.init_network_params s).epochs = o.epochs := by
  refine ⟨?_, rfl, rfl, rfl, rfl⟩
  simp [Optimizer.init_network_params, init_params_loop_length]

theorem SGD_train_state (o : Optimizer) (x y : Mat) :
    (SGD.train o x y).cost.length = o.cost.length + o.epochs.toNat
    ∧ (SGD.train o x y).accuracy.length = o.accuracy.length + o.epochs.toNat
    ∧ (SGD.train o x y).network_params.length
        = o.network_params.length + o.layers.length
    ∧ (SGD.train o x y).layers = o.layers
    ∧ (SGD.train o x y).epochs = o.epochs := by
  have hi := init_network_params_state o (matShape x)
  have he := sgdEpochs_state x y o.epochs.toNat (o.init_network_params (matShape x))
  unfold SGD.train
  refine ⟨?_, ?_, ?_, ?_, ?_⟩
  · rw [he.1, hi.2.1]
  · rw [he.2.1, hi.2.2.1]
  · rw [he.2.2.1, hi.1]
  · rw [he.2.2.2.1, hi.2.2.2.1]
  · rw [he.2.2.2.2, hi.2.2.2.2]

theorem momentumEpoch_history (m : Momentum) (x y : Mat) :
    (momentumEpoch m x y).cost.length = m.cost.length + 1
    ∧ (momentumEpoch m x y).accuracy.length = m.accuracy.length + 1 := by
  constructor <;> simp [momentumEpoch]

theorem momentumEpochs_history (x y : Mat) : ∀ (n : ℕ) (m : Momentum),
    (momentumEpochs x y n m).cost.length = m.cost.length + n
    ∧ (momentumEpochs x y n m).accuracy.length = m.accuracy.length + n
  | 0, m => ⟨rfl, rfl⟩
  | Nat.succ n, m => by
      have ih := momentumEpochs_history x y n (momentumEpoch m x y)
      have he := momentumEpoch_history m x y
      simp only [momentumEpochs]
      exact ⟨by rw [ih.1, he.1]; omega, by rw [ih.2, he.2]; omega⟩

theorem Momentum_train_history (m : Momentum) (x y : Mat) :
    (Momentum.train m x y).cost.length = m.cost.length + m.epochs.toNat
    ∧ (Momentum.train m x y).accuracy.length = m.accuracy.length + m.epochs.toNat := by
  have he := momentumEpochs_history x y m.epochs.toNat (m.init_network_params (matShape x))
  unfold Momentum.train
  exact ⟨by rw [he.1]; rfl, by rw [he.2]; rfl⟩

/-- Claim C4 is false: the source performs no hyperparameter validation at all
(there is no `ConfigurationError` anywhere in the code). Construction with
`lr = 0` succeeds and training runs all 3 epochs; `Momentum` construction with
`beta = 1.0` succeeds and training runs all 3 epochs. -/
theorem C4_counterexample :
    (Optimizer.init [⟨1, id⟩] (fun _ _ => 0) (fun _ _ => 0) 3 0
        (fun x y => [⟨x, y⟩]) (fun p _ _ => zerosLikeParams p)).lr = 0
    ∧ (SGD.train (Optimizer.init [⟨1, id⟩] (fun _ _ => 0) (fun _ _ => 0) 3 0
        (fun x y => [⟨x, y⟩]) (fun p _ _ => zerosLikeParams p)) [[1]] [[1]]).cost.length = 3
    ∧ (Momentum.init [⟨1, id⟩] (fun _ _ => 0) (fun _ _ => 0) 3 1
        (fun x y => [⟨x, y⟩]) (fun p _ _ => zerosLikeParams p) 1).beta = 1
    ∧ (Momentum.train (Momentum.init [⟨1, id⟩] (fun _ _ => 0) (fun _ _ => 0) 3 1
        (fun x y => [⟨x, y⟩]) (fun p _ _ => zerosLikeParams p) 1) [[1]] [[1]]).cost.length
      = 3 := by
  refine ⟨rfl, by decide, rfl, by decide⟩

/-- Claim C4 (amended): neither constructor validates its hyperparameters:
for every `epochs`, `lr` and `beta` — including `epochs ≤ 0`, `lr = 0` and
`beta = 1.0` — construction succeeds, stores the values unchanged, and a
subsequent `train` call runs `max(epochs, 0)` epochs normally; no
`ConfigurationError` exists or is raised. -/
theorem C4_amended_no_validation (layers : List FC) (loss acc : Mat → Mat → ℚ)
    (epochs : ℤ) (lr beta : ℚ) (iterator : Mat → Mat → List Batch)
    (grad_fn : List LayerParams → Mat → Mat → List LayerParams) (x y : Mat) :
    (Optimizer.init layers loss acc epochs lr iterator grad_fn).lr = lr
    ∧ (Optimizer.init layers loss acc epochs lr iterator grad_fn).epochs = epochs
    ∧ (Momentum.init layers loss acc epochs lr iterator grad_fn beta).beta = beta
    ∧ (SGD.train (Optimizer.init layers loss acc epochs lr iterator grad_fn) x y).cost.length
        = epochs.toNat
    ∧ (Momentum.train (Momentum.init layers loss acc epochs lr iterator grad_fn beta)
          x y).cost.length = epochs.toNat := by
  refine ⟨rfl, rfl, rfl, ?_, ?_⟩
  · simpa [Optimizer.init] using
      (SGD_train_state (Optimizer.init layers loss acc epochs lr iterator grad_fn) x y).1
  · simpa [Momentum.init, Optimizer.init] using
      (Momentum_train_history (Momentum.init layers loss acc epochs lr iterator grad_fn beta) x y).1

/-- Claim C5 is false: `init_network_params` performs no validation and there is
no `ShapeError` in the code. With an empty layer sequence it returns normally
and appends nothing; with input feature count 0 it returns normally and appends
a parameter dict whose weight matrix has zero columns. -/
theorem C5_counterexample :
    ((Optimizer.init [] (fun _ _ => 0) (fun _ _ => 0) 1 1 (fun x y => [⟨x, y⟩])
        (fun p _ _ => zerosLikeParams p)).init_network_params (3, 5)).network_params = []
    ∧ ((Optimizer.init [⟨2, id⟩] (fun _ _ => 0) (fun _ _ => 0) 1 1 (fun x y => [⟨x, y⟩])
        (fun p _ _ => zerosLikeParams p)).init_network_params (0, 5)).network_params
      = [⟨[[], []], [[0], [0]]⟩] := by
  constructor
  · rfl
  · simp [Optimizer.init, Optimizer.init_network_params, init_params_loop, prngSplit,
      PRNGKey, randNormal, matScale, zerosMat, List.replicate]

/-- Claim C5 (amended): parameter initialization does not validate its inputs
and never raises: with an empty layer sequence it leaves `network_params`
unchanged (appending nothing), and for every input shape — including feature
count 0 — it appends exactly one parameter dict per layer. -/
theorem C5_amended_no_validation (o : Optimizer) (s : ℕ × ℕ) :
    ({ o with layers := [] }.init_network_params s).network_params = o.network_params
    ∧ (o.init_network_params s).network_params.length
        = o.network_params.length + o.layers.length := by
  constructor
  · simp [Optimizer.init_network_params, init_params_loop]
  · exact (init_network_params_state o s).1

/-- Claim C6: for a freshly constructed SGD or Momentum optimizer, after a
completed `train` call the cost and accuracy histories each hold exactly
`epochs` entries (`epochs.toNat` in the embedding, since `range` of the `int`
is empty when non-positive), one scalar appended per completed epoch: at the
end of each epoch the accumulated loss is appended to `cost` and the
full-dataset accuracy of the post-epoch parameters to `accuracy`. -/
theorem C6_history_per_epoch (layers : List FC) (loss acc : Mat → Mat → ℚ)
    (epochs : ℤ) (lr beta : ℚ) (iterator : Mat → Mat → List Batch)
    (grad_fn : List LayerParams → Mat → Mat → List LayerParams) (x y : Mat)
    (o : Optimizer) (m : Momentum) :
    (SGD.train (Optimizer.init layers loss acc epochs lr iterator grad_fn) x y).cost.length
      = epochs.toNat
    ∧ (SGD.train (Optimizer.init layers loss acc epochs lr iterator grad_fn) x y).accuracy.length
      = epochs.toNat
    ∧ (Momentum.train (Momentum.init layers loss acc epochs lr iterator grad_fn beta)
          x y).cost.length = epochs.toNat
    ∧ (Momentum.train (Momentum.init layers loss acc epochs lr iterator grad_fn beta)
          x y).accuracy.length = epochs.toNat
    ∧ (sgdEpoch o x y).cost
      = o.cost ++ [(sgdBatches o (o.iterator x y) o.network_params 0).2]
    ∧ (sgdEpoch o x y).accuracy
      = o.accuracy ++ [{ o with network_params :=
          (sgdBatches o (o.iterator x y) o.network_params 0).1 }.evaluate x y]
    ∧ (momentumEpoch m x y).cost
      = m.cost ++ [(momentumBatches m (m.iterator x y)
          (m.network_params, m.momentum_params, 1, 0)).2.2.2]
    ∧ (momentumEpoch m x y).accuracy
      = m.accuracy ++ [{ m.toOptimizer with network_params :=
          (momentumBatches m (m.iterator x y)
            (m.network_params, m.momentum_params, 1, 0)).1 }.evaluate x y] := by
  refine ⟨?_, ?_, ?_, ?_, rfl, rfl, rfl, rfl⟩
  · simpa [Optimizer.init] using
      (SGD_train_state (Optimizer.init layers loss acc epochs lr iterator grad_fn) x y).1
  · simpa [Optimizer.init] using
      (SGD_train_state (Optimizer.init layers loss acc epochs lr iterator grad_fn) x y).2.1
  · simpa [Momentum.init, Optimizer.init] using
      (Momentum_train_history (Momentum.init layers loss acc epochs lr iterator grad_fn beta) x y).1
  · simpa [Momentum.init, Optimizer.init] using
      (Momentum_train_history (Momentum.init layers loss acc epochs lr iterator grad_fn beta) x y).2

theorem rect_randNormal (key r c : ℕ) : rect (randNormal key (r, c)) r c := by
  constructor
  · simp [randNormal]
  · intro row hrow
    simp only [randNormal, List.mem_map, List.mem_range] at hrow
    obtain ⟨i, hi, hrow⟩ := hrow
    rw [← hrow]
    simp

theorem init_params_loop_units : ∀ (l1 l2 : List FC) (key prev : ℕ),
    l1.map FC.units = l2.map FC.units →
    init_params_loop key prev l1 = init_params_loop key prev l2
  | [], [], _, _, _ => rfl
  | [], _ :: _, _, _, h => by simp at h
  | _ :: _, [], _, _, h => by simp at h
  | f1 :: l1, f2 :: l2, key, prev, h => by
      simp only [List.map_cons, List.cons.injEq] at h
      simp only [init_params_loop, h.1]
      rw [init_params_loop_units l1 l2 (prngSplit key).1 f2.units h.2]

theorem init_params_loop_struct : ∀ (layers : List FC) (key prev i : ℕ),
    i < layers.length →
    ((init_params_loop key prev layers).getD i default).b
        = zerosMat ((layers.getD i default).units) 1
    ∧ rect ((init_params_loop key prev layers).getD i default).w
        ((layers.getD i default).units)
        (if i = 0 then prev else (layers.getD (i - 1) default).units)
  | [], _, _, i, h => absurd h (by simp)
  | f :: rest, key, prev, 0, _ => by
      constructor
      · rfl
      · simpa [init_params_loop, List.getD] using
          rect_matScale (1/100) _ f.units prev (rect_randNormal (prngSplit key).2 f.units prev)
  | f :: rest, key, prev, Nat.succ i, h => by
      have ih := init_params_loop_struct rest (prngSplit key).1 f.units i (by simpa using h)
      cases i with
      | zero => simpa [init_params_loop, List.getD] using ih
      | succ j => simpa [init_params_loop, List.getD] using ih

/-- Claim C7: initialization is deterministic and reproducible — it reads no
varying state (the seed is the hard-coded `PRNGKey(0)`), so the freshly
appended parameter dicts depend only on the layer unit topology and the input
feature count; moreover every appended bias is the all-zero `(units_i, 1)`
array and every appended weight matrix has shape `(units_i, prev_units)`
(the weight values being the fixed PRNG draw scaled by 0.01, which is
definitional in `init_params_loop`). -/
theorem C7_init_deterministic (o1 o2 : Optimizer) (s : ℕ × ℕ) (i : ℕ)
    (hunits : o1.layers.map FC.units = o2.layers.map FC.units)
    (hi : i < o1.layers.length) :
    (o1.init_network_params s).network_params.drop o1.network_params.length
      = (o2.init_network_params s).network_params.drop o2.network_params.length
    ∧ ((init_params_loop (PRNGKey 0) s.1 o1.layers).getD i default).b
        = zerosMat ((o1.layers.getD i default).units) 1
    ∧ rect ((init_params_loop (PRNGKey 0) s.1 o1.layers).getD i default).w
        ((o1.layers.getD i default).units)
        (if i = 0 then s.1 else (o1.layers.getD (i - 1) default).units) := by
  have hstruct := init_params_loop_struct o1.layers (PRNGKey 0) s.1 i hi
  refine ⟨?_, hstruct.1, hstruct.2⟩
  simp only [Optimizer.init_network_params, List.drop_left]
  exact init_params_loop_units o1.layers o2.layers (PRNGKey 0) s.1 hunits

theorem C7_init_deterministic_witness :
    (Optimizer.init [⟨1, id⟩] (fun _ _ => 0) (fun _ _ => 0) 1 1
        (fun x y => [⟨x, y⟩]) (fun p _ _ => zerosLikeParams p)).layers.map FC.units
      = (Optimizer.init [⟨1, fun _ => [[9]]⟩] (fun _ _ => 1) (fun _ _ => 1) 2 5
          (fun _ _ => []) (fun _ _ _ => [])).layers.map FC.units
    ∧ ((Optimizer.init [⟨1, id⟩] (fun _ _ => 0) (fun _ _ => 0) 1 1
          (fun x y => [⟨x, y⟩]) (fun p _ _ => zerosLikeParams p)).init_network_params
            (3, 4)).network_params.drop
        (Optimizer.init [⟨1, id⟩] (fun _ _ => 0) (fun _ _ => 0) 1 1
          (fun x y => [⟨x, y⟩]) (fun p _ _ => zerosLikeParams p)).network_params.length
      = ((Optimizer.init [⟨1, fun _ => [[9]]⟩] (fun _ _ => 1) (fun _ _ => 1) 2 5
            (fun _ _ => []) (fun _ _ _ => [])).init_network_params
              (3, 4)).network_params.drop
          (Optimizer.init [⟨1, fun _ => [[9]]⟩] (fun _ _ => 1) (fun _ _ => 1) 2 5
            (fun _ _ => []) (fun _ _ _ => [])).network_params.length := by
  have h := C7_init_deterministic
    (Optimizer.init [⟨1, id⟩] (fun _ _ => 0) (fun _ _ => 0) 1 1
      (fun x y => [⟨x, y⟩]) (fun p _ _ => zerosLikeParams p))
    (Optimizer.init [⟨1, fun _ => [[9]]⟩] (fun _ _ => 1) (fun _ _ => 1) 2 5
      (fun _ _ => []) (fun _ _ _ => []))
    (3, 4) 0 rfl (by decide)
  exact ⟨rfl, h.1⟩

theorem predictions_loop_take (params : List LayerParams) :
    ∀ (layers : List FC) (i : ℕ) (a : Mat) (L : ℕ), i + layers.length ≤ L →
      predictions_loop (params.take L) layers i a = predictions_loop params layers i a
  | [], _, _, _, _ => rfl
  | layer :: rest, i, a, L, h => by
      simp only [predictions_loop]
      rw [getD_take_lt params i L (by simp at h; omega) default]
      exact predictions_loop_take params rest (i + 1) _ L (by simp at h; omega)

/-- Claim C10: `init_network_params` appends one parameter dict per layer onto
the existing list without clearing it, leaving previously stored entries
unchanged in place; a second `train` call on the same instance therefore
operates on a list of `2 * len(layers)` entries (old parameters first, freshly
initialized ones after), while `compute_predictions` only ever indexes the
first `len(layers)` entries, and the cost/accuracy histories keep growing past
`epochs` entries (to `2 * epochs` after the second call). -/
theorem C10_init_append_frame (o : Optimizer) (s : ℕ × ℕ) (params : List LayerParams)
    (inputs : Mat) (layers : List FC) (loss acc : Mat → Mat → ℚ) (epochs : ℤ) (lr : ℚ)
    (iterator : Mat → Mat → List Batch)
    (grad_fn : List LayerParams → Mat → Mat → List LayerParams) (x y x2 y2 : Mat) :
    (o.init_network_params s).network_params.take o.network_params.length
      = o.network_params
    ∧ (o.init_network_params s).network_params.length
      = o.network_params.length + o.layers.length
    ∧ o.compute_predictions params inputs
      = o.compute_predictions (params.take o.layers.length) inputs
    ∧ (SGD.train (SGD.train (Optimizer.init layers loss acc epochs lr iterator grad_fn) x y)
        x2 y2).network_params.length = 2 * layers.length
    ∧ (SGD.train (SGD.train (Optimizer.init layers loss acc epochs lr iterator grad_fn) x y)
        x2 y2).cost.length = 2 * epochs.toNat
    ∧ (SGD.train (SGD.train (Optimizer.init layers loss acc epochs lr iterator grad_fn) x y)
        x2 y2).accuracy.length = 2 * epochs.toNat := by
  have h1 := SGD_train_state (Optimizer.init layers loss acc epochs lr iterator grad_fn) x y
  have h2 := SGD_train_state
    (SGD.train (Optimizer.init layers loss acc epochs lr iterator grad_fn) x y) x2 y2
  refine ⟨?_, (init_network_params_state o s).1, ?_, ?_, ?_, ?_⟩
  · simp only [Optimizer.init_network_params, List.take_left]
  · exact (predictions_loop_take params o.layers 0 inputs o.layers.length (by simp)).symm
  · rw [h2.2.2.1, h1.2.2.1, h1.2.2.2.1]
    simp [Optimizer.init]
    omega
  · rw [h2.1, h1.1, h1.2.2.2.2]
    simp [Optimizer.init]
    omega
  · rw [h2.2.1, h1.2.1, h1.2.2.2.2]
    simp [Optimizer.init]
    omega
